import Mathlib

/-!
Verification of the ViT training script (src/train.py).

The development shallowly embeds the parts of the program that the
properties below are about:

* the command-line argument schema of the function at src/train.py:38-93
  (flag names, declared defaults, int/float/bool conversion, choice
  constraints) and the parse-known-arguments behaviour used at
  src/train.py:193, where unrecognized tokens are collected instead of
  raising a usage error;
* the Trainer epoch loop (src/train.py:112-189): per-batch training and
  validation folds, metric computation, the checkpoint decision, the
  scheduler step, and the four result lists;
* the gradient-clipping branch of a training step (src/train.py:144-148);
* the constructor arguments that main passes to the ViT model
  (src/train.py:219-230) and to the label-smoothing loss (src/train.py:232).

Numeric values are modelled as rationals.  Where a quantity is produced by
the external tensor library (per-batch losses, correct-prediction counts,
the parameter update of an optimizer step), the embedding is parametric in
an environment supplying those functions, mirroring the spec, which treats
the model as an opaque differentiable function.
-/

/- ### Argument schema (src/train.py:38-93) -/

/-- The flag names declared by the argument schema in src/train.py:38-93,
in source order. -/
def knownFlagNames : List String :=
  ["--dir", "--num_classes", "--patch_size", "--out_dim",
   "--norm_last_layer", "--use_bn_in_head", "--image_size", "--in_channels",
   "--embed_dim", "--num_layers", "--num_heads", "--vit_mlp_ratio",
   "--qkv_bias", "--drop_rate", "--weight_decay", "--batch_size",
   "--epochs", "--lr", "--warmup_epochs", "--min_lr", "--optimizer",
   "--drop_path_rate", "--label_smoothing", "--gamma", "--dataset",
   "--seed", "--num_workers", "--mlp_head_in", "--checkpoint_dir"]

/-- The configuration record produced by parsing, with the declared
defaults from src/train.py:38-93 as field defaults.  Integer-typed flags
are modelled as integers, float-typed flags as rationals. -/
structure Args where
  dir : String := "./data"
  num_classes : Int := 10
  patch_size : Int := 2
  out_dim : Int := 1024
  norm_last_layer : Bool := false
  use_bn_in_head : Bool := false
  image_size : Int := 32
  in_channels : Int := 3
  embed_dim : Int := 192
  num_layers : Int := 9
  num_heads : Int := 12
  vit_mlp_ratio : Int := 2
  qkv_bias : Bool := true
  drop_rate : Rat := 0
  weight_decay : Rat := 1/10
  batch_size : Int := 128
  epochs : Int := 100
  lr : Rat := 1/1000
  warmup_epochs : Int := 10
  min_lr : Rat := 1/1000000
  optimizer : String := "adamw"
  drop_path_rate : Rat := 1/10
  label_smoothing : Rat := 1/10
  gamma : Rat := 1
  dataset : String := "CIFAR10"
  seed : Int := 42
  num_workers : Int := 8
  mlp_head_in : Int := 192
  checkpoint_dir : String := "."
deriving DecidableEq

/-- The configuration produced when no flag is supplied: every field holds
its declared default. -/
def defaultArgs : Args := {}

/-- Value of a decimal digit character. -/
def digitVal (c : Char) : Nat := c.toNat - '0'.toNat

/-- Natural number denoted by a digit list (most significant first). -/
def digitsToNat (l : List Char) : Nat :=
  l.foldl (fun n c => 10 * n + digitVal c) 0

/-- Conversion performed for int-typed flags: an optional minus sign
followed by at least one decimal digit; anything else is rejected. -/
def intParse (s : String) : Option Int :=
  match s.data with
  | [] => none
  | '-' :: rest =>
      if rest ≠ [] ∧ rest.all Char.isDigit then some (-(digitsToNat rest : Int)) else none
  | l =>
      if l.all Char.isDigit then some (digitsToNat l : Int) else none

/-- Split a character list at the first dot, if any. -/
def splitDot : List Char → List Char × Option (List Char)
  | [] => ([], none)
  | c :: rest =>
      if c = '.' then ([], some rest)
      else
        let p := splitDot rest
        (c :: p.1, p.2)

/-- Unsigned decimal: digits, optionally with a fractional part; at least
one digit overall. -/
def floatCore (l : List Char) : Option Rat :=
  match splitDot l with
  | (intPart, none) =>
      if intPart ≠ [] ∧ intPart.all Char.isDigit then some (digitsToNat intPart : Rat) else none
  | (intPart, some frac) =>
      if intPart.all Char.isDigit ∧ frac.all Char.isDigit ∧ (intPart ≠ [] ∨ frac ≠ []) then
        some ((digitsToNat intPart : Rat) + (digitsToNat frac : Rat) / ((10 ^ frac.length : Nat) : Rat))
      else none

/-- Conversion performed for float-typed flags (decimal subset; exponent
forms are not needed by any property below). -/
def floatParse (s : String) : Option Rat :=
  match s.data with
  | '-' :: rest => (floatCore rest).map (fun x => -x)
  | l => floatCore l

/-- Conversion performed for bool-typed flags: Python bool(s) is true
exactly on a nonempty string. -/
def boolParse (s : String) : Bool := !s.isEmpty

/-- Apply one supplied flag/value pair to a configuration, enforcing the
declared type and choice constraints of src/train.py:38-93; a value the
conversion rejects, or outside the declared choices, is a usage error. -/
def applyPair (a : Args) : String → String → Except String Args
  | "--dir", v => .ok { a with dir := v }
  | "--num_classes", v =>
      match intParse v with
      | some z =>
          if z = 10 ∨ z = 100 ∨ z = 1000 then .ok { a with num_classes := z }
          else .error "usage: argument --num_classes: invalid choice"
      | none => .error "usage: argument --num_classes: invalid int value"
  | "--patch_size", v =>
      match intParse v with
      | some z => .ok { a with patch_size := z }
      | none => .error "usage: argument --patch_size: invalid int value"
  | "--out_dim", v =>
      match intParse v with
      | some z => .ok { a with out_dim := z }
      | none => .error "usage: argument --out_dim: invalid int value"
  | "--norm_last_layer", v => .ok { a with norm_last_layer := boolParse v }
  | "--use_bn_in_head", v => .ok { a with use_bn_in_head := boolParse v }
  | "--image_size", v =>
      match intParse v with
      | some z => .ok { a with image_size := z }
      | none => .error "usage: argument --image_size: invalid int value"
  | "--in_channels", v =>
      match intParse v with
      | some z => .ok { a with in_channels := z }
      | none => .error "usage: argument --in_channels: invalid int value"
  | "--embed_dim", v =>
      match intParse v with
      | some z => .ok { a with embed_dim := z }
      | none => .error "usage: argument --embed_dim: invalid int value"
  | "--num_layers", v =>
      match intParse v with
      | some z => .ok { a with num_layers := z }
      | none => .error "usage: argument --num_layers: invalid int value"
  | "--num_heads", v =>
      match intParse v with
      | some z => .ok { a with num_heads := z }
      | none => .error "usage: argument --num_heads: invalid int value"
  | "--vit_mlp_ratio", v =>
      match intParse v with
      | some z => .ok { a with vit_mlp_ratio := z }
      | none => .error "usage: argument --vit_mlp_ratio: invalid int value"
  | "--qkv_bias", v => .ok { a with qkv_bias := boolParse v }
  | "--drop_rate", v =>
      match floatParse v with
      | some x => .ok { a with drop_rate := x }
      | none => .error "usage: argument --drop_rate: invalid float value"
  | "--weight_decay", v =>
      match floatParse v with
      | some x => .ok { a with weight_decay := x }
      | none => .error "usage: argument --weight_decay: invalid float value"
  | "--batch_size", v =>
      match intParse v with
      | some z => .ok { a with batch_size := z }
      | none => .error "usage: argument --batch_size: invalid int value"
  | "--epochs", v =>
      match intParse v with
      | some z => .ok { a with epochs := z }
      | none => .error "usage: argument --epochs: invalid int value"
  | "--lr", v =>
      match floatParse v with
      | some x => .ok { a with lr := x }
      | none => .error "usage: argument --lr: invalid float value"
  | "--warmup_epochs", v =>
      match intParse v with
      | some z => .ok { a with warmup_epochs := z }
      | none => .error "usage: argument --warmup_epochs: invalid int value"
  | "--min_lr", v =>
      match floatParse v with
      | some x => .ok { a with min_lr := x }
      | none => .error "usage: argument --min_lr: invalid float value"
  | "--optimizer", v =>
      if v = "adamw" ∨ v = "sgd" ∨ v = "lars" then .ok { a with optimizer := v }
      else .error "usage: argument --optimizer: invalid choice"
  | "--drop_path_rate", v =>
      match floatParse v with
      | some x => .ok { a with drop_path_rate := x }
      | none => .error "usage: argument --drop_path_rate: invalid float value"
  | "--label_smoothing", v =>
      match floatParse v with
      | some x => .ok { a with label_smoothing := x }
      | none => .error "usage: argument --label_smoothing: invalid float value"
  | "--gamma", v =>
      match floatParse v with
      | some x => .ok { a with gamma := x }
      | none => .error "usage: argument --gamma: invalid float value"
  | "--dataset", v =>
      if v = "CIFAR10" ∨ v = "CIFAR100" then .ok { a with dataset := v }
      else .error "usage: argument --dataset: invalid choice"
  | "--seed", v =>
      match intParse v with
      | some z => .ok { a with seed := z }
      | none => .error "usage: argument --seed: invalid int value"
  | "--num_workers", v =>
      match intParse v with
      | some z => .ok { a with num_workers := z }
      | none => .error "usage: argument --num_workers: invalid int value"
  | "--mlp_head_in", v =>
      match intParse v with
      | some z => .ok { a with mlp_head_in := z }
      | none => .error "usage: argument --mlp_head_in: invalid int value"
  | "--checkpoint_dir", v => .ok { a with checkpoint_dir := v }
  | _, _ => .error "usage: unrecognized arguments"

/-- Apply a list of supplied pairs left to right, stopping at the first
invalid one (the library validates each occurrence as it is consumed). -/
def applyPairs : Args → List (String × String) → Except String Args
  | a, [] => .ok a
  | a, (n, v) :: rest =>
      match applyPair a n v with
      | .error e => .error e
      | .ok a2 => applyPairs a2 rest

/-- A token of an argument vector that looks like an option: it begins
with a dash and is not a bare dash or a negative number (approximating the
negative-number matcher the library uses when deciding whether a dashed
token can serve as an option value). -/
def optionLike (s : String) : Bool :=
  match s.data with
  | '-' :: rest => rest ≠ [] && !(rest.all (fun c => c.isDigit || c = '.'))
  | _ => false

/-- One pass over the argument vector, in the parse-known-arguments mode
used at src/train.py:193: a declared flag consumes the following token as
its value (a missing or option-like value is a usage error); any other
token is collected, in order, into the unrecognized list.  The second
argument is a declared flag still waiting for its value. -/
def scanArgv : List String → Option String → Except String (List (String × String) × List String)
  | [], none => .ok ([], [])
  | [], some _ => .error "usage: expected one argument"
  | t :: rest, some f =>
      if optionLike t then .error "usage: expected one argument"
      else
        match scanArgv rest none with
        | .error e => .error e
        | .ok (ps, us) => .ok ((f, t) :: ps, us)
  | t :: rest, none =>
      if t ∈ knownFlagNames then scanArgv rest (some t)
      else
        match scanArgv rest none with
        | .error e => .error e
        | .ok (ps, us) => .ok (ps, t :: us)

/-- Split an argument vector into declared flag/value pairs and
unrecognized tokens. -/
def splitKnown (argv : List String) : Except String (List (String × String) × List String) :=
  scanArgv argv none

/-- The configuration parse performed by main (src/train.py:193): split
the vector, validate and apply each declared pair over the defaults, and
return the configuration together with the unrecognized tokens.  A pure
function: parsing has no effect beyond validation. -/
def parseKnownArgs (argv : List String) : Except String (Args × List String) :=
  match splitKnown argv with
  | .error e => .error e
  | .ok (pairs, unknown) =>
      match applyPairs defaultArgs pairs with
      | .error e => .error e
      | .ok a => .ok (a, unknown)

/- ### Trainer epoch loop (src/train.py:112-189)

The embedding is parametric in the batch type B, the model-parameter type
P, and an environment supplying the quantities the external tensor
library produces for a batch: the scalar loss, the correct-prediction
count, the parameter update applied by the backward/optimizer step, and
the number of examples in the batch. -/

/-- External collaborators of one batch, per the spec: the model and loss
are an opaque differentiable function of the parameters, and the
optimizer step is an opaque parameter update. -/
structure TrainEnv (B P : Type) where
  forwardLoss : P → B → Rat
  forwardCorrect : P → B → Nat
  updateParams : P → B → P
  batchSize : B → Nat

/-- A data loader: its list of batches (len(loader) is the list length)
and the total example count of its dataset (len(loader.dataset)). -/
structure Loader (B : Type) where
  batches : List B
  datasetSize : Nat

/-- Accumulator of a batch loop: the model parameters and the running
loss and correct-prediction totals. -/
structure PhaseAcc (P : Type) where
  params : P
  totalLoss : Rat
  totalCorrect : Nat

/-- One training batch (src/train.py:134-155): the loss and the
prediction count are computed from the current parameters, and the
backward pass plus optimizer step update the parameters. -/
def trainBatchStep {B P : Type} (env : TrainEnv B P) (st : PhaseAcc P) (b : B) : PhaseAcc P :=
  { params := env.updateParams st.params b
    totalLoss := st.totalLoss + env.forwardLoss st.params b
    totalCorrect := st.totalCorrect + env.forwardCorrect st.params b }

/-- The training phase of one epoch: fold the training batches. -/
def trainPhase {B P : Type} (env : TrainEnv B P) (p : P) (bs : List B) : PhaseAcc P :=
  bs.foldl (trainBatchStep env) { params := p, totalLoss := 0, totalCorrect := 0 }

/-- One validation batch (src/train.py:164-172): computed under no_grad;
the loss and prediction count are accumulated and the parameters are not
written. -/
def valBatchStep {B P : Type} (env : TrainEnv B P) (st : PhaseAcc P) (b : B) : PhaseAcc P :=
  { params := st.params
    totalLoss := st.totalLoss + env.forwardLoss st.params b
    totalCorrect := st.totalCorrect + env.forwardCorrect st.params b }

/-- The validation phase of one epoch: fold the validation batches. -/
def valPhase {B P : Type} (env : TrainEnv B P) (p : P) (bs : List B) : PhaseAcc P :=
  bs.foldl (valBatchStep env) { params := p, totalLoss := 0, totalCorrect := 0 }

/-- Average train loss reported for an epoch started at parameters p:
accumulated loss divided by the number of batches (src/train.py:157). -/
def epochTrainLoss {B P : Type} (env : TrainEnv B P) (L : Loader B) (p : P) : Rat :=
  (trainPhase env p L.batches).totalLoss / (L.batches.length : Rat)

/-- Train accuracy reported for an epoch started at parameters p:
correct predictions divided by the dataset size (src/train.py:158). -/
def epochTrainAcc {B P : Type} (env : TrainEnv B P) (L : Loader B) (p : P) : Rat :=
  ((trainPhase env p L.batches).totalCorrect : Rat) / (L.datasetSize : Rat)

/-- Average validation loss reported for an epoch started at parameters
p; validation runs on the parameters the training phase produced
(src/train.py:174). -/
def epochValLoss {B P : Type} (env : TrainEnv B P) (L V : Loader B) (p : P) : Rat :=
  (valPhase env (trainPhase env p L.batches).params V.batches).totalLoss / (V.batches.length : Rat)

/-- Validation accuracy reported for an epoch started at parameters p
(src/train.py:175). -/
def epochValAcc {B P : Type} (env : TrainEnv B P) (L V : Loader B) (p : P) : Rat :=
  ((valPhase env (trainPhase env p L.batches).params V.batches).totalCorrect : Rat) / (V.datasetSize : Rat)

/-- The four per-epoch metrics of the log line at src/train.py:181. -/
structure EpochMetrics where
  avgTrainLoss : Rat
  trainAcc : Rat
  avgValLoss : Rat
  valAcc : Rat
deriving DecidableEq

/-- The metrics logged for an epoch started at parameters p. -/
def epochMetricsOf {B P : Type} (env : TrainEnv B P) (L V : Loader B) (p : P) : EpochMetrics :=
  { avgTrainLoss := epochTrainLoss env L p
    trainAcc := epochTrainAcc env L p
    avgValLoss := epochValLoss env L V p
    valAcc := epochValAcc env L V p }

/-- Observable events of the epoch loop, in program order. -/
inductive TEvent where
  | trainBatch
  | valBatch
  | checkpointDecision (saved : Bool)
  | schedStep
deriving DecidableEq

/-- The events one epoch emits, in the order of src/train.py:125-187:
the training batches, the validation batches, the checkpoint decision
(src/train.py:182-185), then the scheduler step (src/train.py:187). -/
def epochEvents {B : Type} (L V : Loader B) (saved : Bool) : List TEvent :=
  (L.batches.map fun _ => TEvent.trainBatch) ++
    ((V.batches.map fun _ => TEvent.valBatch) ++
      [TEvent.checkpointDecision saved, TEvent.schedStep])

/-- The Trainer state across epochs: model parameters, the best
validation accuracy so far, the epochs at which a checkpoint was written,
the number of scheduler steps taken, the logged metrics, the emitted
events, and the four result lists initialized at src/train.py:113. -/
structure TState (P : Type) where
  params : P
  bestAccuracy : Rat
  savedEpochs : List Nat
  schedSteps : Nat
  log : List EpochMetrics
  trace : List TEvent
  trainLosses : List Rat
  valLosses : List Rat
  trainAccuracies : List Rat
  valAccuracies : List Rat

/-- One iteration of the epoch loop (src/train.py:125-187) for epoch
index e: run the training and validation phases, log the metrics, write a
checkpoint and update the best value exactly when the validation accuracy
strictly exceeds it, then step the scheduler once. -/
def runEpoch {B P : Type} (env : TrainEnv B P) (L V : Loader B) (e : Nat) (st : TState P) : TState P :=
  let valAcc := epochValAcc env L V st.params
  { params := (valPhase env (trainPhase env st.params L.batches).params V.batches).params
    bestAccuracy := if st.bestAccuracy < valAcc then valAcc else st.bestAccuracy
    savedEpochs := if st.bestAccuracy < valAcc then st.savedEpochs ++ [e] else st.savedEpochs
    schedSteps := st.schedSteps + 1
    log := st.log ++ [epochMetricsOf env L V st.params]
    trace := st.trace ++ epochEvents L V (decide (st.bestAccuracy < valAcc))
    trainLosses := st.trainLosses
    valLosses := st.valLosses
    trainAccuracies := st.trainAccuracies
    valAccuracies := st.valAccuracies }

/-- The state at the top of Trainer.train (src/train.py:113-114): best
accuracy 0.0, nothing saved, empty lists. -/
def initState {P : Type} (p0 : P) : TState P :=
  { params := p0, bestAccuracy := 0, savedEpochs := [], schedSteps := 0,
    log := [], trace := [], trainLosses := [], valLosses := [],
    trainAccuracies := [], valAccuracies := [] }

/-- The Trainer state after running the first n epochs (for epoch in
range(args.epochs) at src/train.py:125). -/
def trainN {B P : Type} (env : TrainEnv B P) (L V : Loader B) (p0 : P) : Nat → TState P
  | 0 => initState p0
  | n + 1 => runEpoch env L V n (trainN env L V p0 n)

/-- The value Trainer.train returns (src/train.py:189): the four lists. -/
def trainReturn {B P : Type} (env : TrainEnv B P) (L V : Loader B) (p0 : P) (n : Nat) :
    List Rat × List Rat × List Rat × List Rat :=
  ((trainN env L V p0 n).trainLosses, (trainN env L V p0 n).valLosses,
   (trainN env L V p0 n).trainAccuracies, (trainN env L V p0 n).valAccuracies)

/-- The parameters at the start of epoch e: each epoch advances them by
its training phase only (validation does not write them). -/
def paramsAt {B P : Type} (env : TrainEnv B P) (L : Loader B) (p0 : P) : Nat → P
  | 0 => p0
  | e + 1 => (trainPhase env (paramsAt env L p0 e) L.batches).params

/-- The validation accuracy of epoch e. -/
def valAccAt {B P : Type} (env : TrainEnv B P) (L V : Loader B) (p0 : P) (e : Nat) : Rat :=
  epochValAcc env L V (paramsAt env L p0 e)

/-- The per-batch training losses of one epoch, threading the parameter
updates through the batch list. -/
def perBatchLosses {B P : Type} (env : TrainEnv B P) : P → List B → List Rat
  | _, [] => []
  | p, b :: bs => env.forwardLoss p b :: perBatchLosses env (env.updateParams p b) bs

/-- The per-batch correct-prediction counts of one epoch. -/
def perBatchCorrects {B P : Type} (env : TrainEnv B P) : P → List B → List Nat
  | _, [] => []
  | p, b :: bs => env.forwardCorrect p b :: perBatchCorrects env (env.updateParams p b) bs

/- ### Gradient clipping in a training batch (src/train.py:144-148) -/

/-- Observable events of the gradient pipeline of one training batch, in
program order. -/
inductive GEvent where
  | backward
  | unscale
  | clipGrad
  | optimizerStep
  | scalerUpdate
deriving DecidableEq

/-- Modelled from the spec: utils/utils.py (clip_gradients) is not under
src/.  Per the spec, it rescales the gradients so that their global norm
does not exceed the threshold; modelled on the global norm itself, a norm
above the threshold is scaled down to the threshold and any other norm is
left as it is. -/
def clip_gradients (clip gn : Rat) : Rat :=
  if clip < gn then clip else gn

/-- The gradient-pipeline events of one training batch
(src/train.py:142-149): backward, then, exactly when args.clip_grad > 0,
unscaling followed by clipping, then the optimizer step and the scaler
update. -/
def trainStepEvents (clip_grad : Rat) : List GEvent :=
  if 0 < clip_grad then
    [GEvent.backward, GEvent.unscale, GEvent.clipGrad, GEvent.optimizerStep, GEvent.scalerUpdate]
  else
    [GEvent.backward, GEvent.optimizerStep, GEvent.scalerUpdate]

/-- The global gradient norm when the optimizer step runs: clipped
exactly when args.clip_grad > 0, otherwise untouched. -/
def gradNormAtStep (clip_grad gn : Rat) : Rat :=
  if 0 < clip_grad then clip_gradients clip_grad gn else gn

/- ### Model construction in main (src/train.py:219-230) -/

/-- The constructor arguments of the ViT model. -/
structure ViTArgs where
  img_size : List Int
  patch_size : Int
  in_chans : Int
  num_classes : Int
  embed_dim : Int
  depth : Int
  num_heads : Int
  mlp_ratio : Int
  qkv_bias : Bool
  drop_rate : Rat
  drop_path_rate : Rat
deriving DecidableEq

/-- The arguments main passes to the ViT constructor, from
src/train.py:219-230: image size, patch size, channel count, the QKV-bias
flag and the two drop rates come from the configuration, while
num_classes, embed_dim, depth, num_heads and mlp_ratio are the literals
0, 192, 9, 12 and 2. -/
def mainViTArgs (a : Args) : ViTArgs :=
  { img_size := [a.image_size]
    patch_size := a.patch_size
    in_chans := a.in_channels
    num_classes := 0
    embed_dim := 192
    depth := 9
    num_heads := 12
    mlp_ratio := 2
    qkv_bias := a.qkv_bias
    drop_rate := a.drop_rate
    drop_path_rate := a.drop_path_rate }

/-- Modelled from the spec: model/vit.py is not under src/.  The spec
describes the model as an opaque function from an image tensor of shape
(batch, channels, height, width) to logits of shape
(batch, num_classes); the output shape is therefore the batch size paired
with the num_classes constructor argument. -/
def vitOutputShape (va : ViTArgs) (batch _channels _height _width : Nat) : Nat × Int :=
  (batch, va.num_classes)

/- ### Loss construction in main (src/train.py:232) -/

/-- Modelled from the spec: utils/loss.py (LabelSmoothingCrossEntropy) is
not under src/.  Per the spec it is a label-smoothed cross-entropy whose
smoothing fraction is a constructor argument; the constructor default is
the conventional 1/10. -/
structure LabelSmoothingCrossEntropy where
  smoothing : Rat := 1/10

/-- The loss object main builds at src/train.py:232: the constructor is
called with no argument, so every field keeps its default. -/
def mainLoss (_a : Args) : LabelSmoothingCrossEntropy := {}

/-- Modelled from the spec: the smoothed target distribution
redistributes the smoothing fraction s of the target probability mass
uniformly across the other n - 1 classes: the target class keeps 1 - s
and every other class receives s / (n - 1). -/
def smoothedTargetProb (s : Rat) (n target i : Nat) : Rat :=
  if i = target then 1 - s else s / ((n : Rat) - 1)

/- ### Concrete instances used by the witnesses -/

/-- A one-batch environment over unit batches: loss 1, one correct
prediction, no parameter motion, batch size 1. -/
def wEnv : TrainEnv Unit Unit :=
  { forwardLoss := fun _ _ => 1
    forwardCorrect := fun _ _ => 1
    updateParams := fun _ _ => ()
    batchSize := fun _ => 1 }

/-- A loader holding one unit batch over a one-example dataset. -/
def wLoader : Loader Unit :=
  { batches := [()], datasetSize := 1 }

/- ### Helper lemmas: batch folds -/

/-- The validation fold never writes the parameters. -/
theorem valFold_params {B P : Type} (env : TrainEnv B P) (bs : List B) :
    ∀ st : PhaseAcc P, (bs.foldl (valBatchStep env) st).params = st.params := by
  induction bs with
  | nil => intro st; rfl
  | cons b bs ih => intro st; exact ih (valBatchStep env st b)

/-- The validation phase returns the parameters it was given. -/
theorem valPhase_params {B P : Type} (env : TrainEnv B P) (p : P) (bs : List B) :
    (valPhase env p bs).params = p :=
  valFold_params env bs _

/-- The parameters of the Trainer state after n epochs. -/
theorem trainN_params {B P : Type} (env : TrainEnv B P) (L V : Loader B) (p0 : P) :
    ∀ n, (trainN env L V p0 n).params = paramsAt env L p0 n := by
  intro n
  induction n with
  | zero => rfl
  | succ n ih =>
      show (runEpoch env L V n (trainN env L V p0 n)).params = _
      rw [runEpoch]
      show (valPhase env (trainPhase env (trainN env L V p0 n).params L.batches).params
        V.batches).params = _
      rw [valPhase_params, ih]
      rfl

/-- The training fold accumulates exactly the per-batch losses. -/
theorem trainFold_totalLoss {B P : Type} (env : TrainEnv B P) (bs : List B) :
    ∀ st : PhaseAcc P,
      (bs.foldl (trainBatchStep env) st).totalLoss
        = st.totalLoss + (perBatchLosses env st.params bs).sum := by
  induction bs with
  | nil => intro st; simp [perBatchLosses]
  | cons b bs ih =>
      intro st
      rw [List.foldl_cons, ih (trainBatchStep env st b)]
      show st.totalLoss + env.forwardLoss st.params b
          + (perBatchLosses env (env.updateParams st.params b) bs).sum = _
      rw [perBatchLosses, List.sum_cons, add_assoc]

/-- The training fold accumulates exactly the per-batch correct counts. -/
theorem trainFold_totalCorrect {B P : Type} (env : TrainEnv B P) (bs : List B) :
    ∀ st : PhaseAcc P,
      (bs.foldl (trainBatchStep env) st).totalCorrect
        = st.totalCorrect + (perBatchCorrects env st.params bs).sum := by
  induction bs with
  | nil => intro st; simp [perBatchCorrects]
  | cons b bs ih =>
      intro st
      rw [List.foldl_cons, ih (trainBatchStep env st b)]
      show st.totalCorrect + env.forwardCorrect st.params b
          + (perBatchCorrects env (env.updateParams st.params b) bs).sum = _
      rw [perBatchCorrects, List.sum_cons, Nat.add_assoc]

/-- The loss total of the training phase is the sum of the per-batch
losses. -/
theorem trainPhase_totalLoss {B P : Type} (env : TrainEnv B P) (p : P) (bs : List B) :
    (trainPhase env p bs).totalLoss = (perBatchLosses env p bs).sum := by
  rw [trainPhase, trainFold_totalLoss]
  exact zero_add _

/-- The correct-count total of the training phase is the sum of the
per-batch correct counts. -/
theorem trainPhase_totalCorrect {B P : Type} (env : TrainEnv B P) (p : P) (bs : List B) :
    (trainPhase env p bs).totalCorrect = (perBatchCorrects env p bs).sum := by
  rw [trainPhase, trainFold_totalCorrect]
  exact Nat.zero_add _

/-- The validation fold accumulates the losses of its batches at its
fixed parameters. -/
theorem valFold_totalLoss {B P : Type} (env : TrainEnv B P) (bs : List B) :
    ∀ st : PhaseAcc P,
      (bs.foldl (valBatchStep env) st).totalLoss
        = st.totalLoss + (bs.map (env.forwardLoss st.params)).sum := by
  induction bs with
  | nil => intro st; simp
  | cons b bs ih =>
      intro st
      rw [List.foldl_cons, ih (valBatchStep env st b)]
      show st.totalLoss + env.forwardLoss st.params b
          + (bs.map (env.forwardLoss st.params)).sum = _
      rw [List.map_cons, List.sum_cons, add_assoc]

/-- The validation fold accumulates the correct counts of its batches at
its fixed parameters. -/
theorem valFold_totalCorrect {B P : Type} (env : TrainEnv B P) (bs : List B) :
    ∀ st : PhaseAcc P,
      (bs.foldl (valBatchStep env) st).totalCorrect
        = st.totalCorrect + (bs.map (env.forwardCorrect st.params)).sum := by
  induction bs with
  | nil => intro st; simp
  | cons b bs ih =>
      intro st
      rw [List.foldl_cons, ih (valBatchStep env st b)]
      show st.totalCorrect + env.forwardCorrect st.params b
          + (bs.map (env.forwardCorrect st.params)).sum = _
      rw [List.map_cons, List.sum_cons, Nat.add_assoc]

/-- The loss total of the validation phase. -/
theorem valPhase_totalLoss {B P : Type} (env : TrainEnv B P) (p : P) (bs : List B) :
    (valPhase env p bs).totalLoss = (bs.map (env.forwardLoss p)).sum := by
  rw [valPhase, valFold_totalLoss]
  exact zero_add _

/-- The correct-count total of the validation phase. -/
theorem valPhase_totalCorrect {B P : Type} (env : TrainEnv B P) (p : P) (bs : List B) :
    (valPhase env p bs).totalCorrect = (bs.map (env.forwardCorrect p)).sum := by
  rw [valPhase, valFold_totalCorrect]
  exact Nat.zero_add _

/-- Per-batch correct counts are bounded by the batch sizes. -/
theorem perBatchCorrects_sum_le {B P : Type} (env : TrainEnv B P)
    (hc : ∀ (p : P) (b : B), env.forwardCorrect p b ≤ env.batchSize b) :
    ∀ (bs : List B) (p : P),
      (perBatchCorrects env p bs).sum ≤ (bs.map env.batchSize).sum := by
  intro bs
  induction bs with
  | nil => intro p; exact Nat.le_refl 0
  | cons b bs ih =>
      intro p
      rw [perBatchCorrects, List.sum_cons, List.map_cons, List.sum_cons]
      exact Nat.add_le_add (hc p b) (ih (env.updateParams p b))

/-- A ratio of naturals with numerator at most the denominator lies in
the unit interval (with the 0/0 = 0 convention of the rationals). -/
theorem natRatio_mem_unit (c d : Nat) (hcd : c ≤ d) :
    0 ≤ (c : Rat) / (d : Rat) ∧ (c : Rat) / (d : Rat) ≤ 1 := by
  constructor
  · exact div_nonneg (Nat.cast_nonneg c) (Nat.cast_nonneg d)
  · rcases Nat.eq_zero_or_pos d with hd | hd
    · subst hd
      have hc0 : c = 0 := Nat.le_zero.mp hcd
      subst hc0
      norm_num
    · exact (div_le_one (by exact_mod_cast hd)).mpr (by exact_mod_cast hcd)

/- ### Helper lemmas: the epoch loop -/

/-- The four result lists are never appended to by an epoch. -/
theorem trainN_lists {B P : Type} (env : TrainEnv B P) (L V : Loader B) (p0 : P) :
    ∀ n, (trainN env L V p0 n).trainLosses = []
      ∧ (trainN env L V p0 n).valLosses = []
      ∧ (trainN env L V p0 n).trainAccuracies = []
      ∧ (trainN env L V p0 n).valAccuracies = [] := by
  intro n
  induction n with
  | zero => exact ⟨rfl, rfl, rfl, rfl⟩
  | succ n ih => exact ih

/-- The log after n epochs: one metrics record per epoch, computed from
the parameters that epoch started at. -/
theorem trainN_log {B P : Type} (env : TrainEnv B P) (L V : Loader B) (p0 : P) :
    ∀ n, (trainN env L V p0 n).log
      = (List.range n).map (fun e => epochMetricsOf env L V (paramsAt env L p0 e)) := by
  intro n
  induction n with
  | zero => rfl
  | succ n ih =>
      show (trainN env L V p0 n).log ++ [epochMetricsOf env L V (trainN env L V p0 n).params] = _
      rw [ih, trainN_params, List.range_succ, List.map_append, List.map_singleton]

/-- The scheduler-step counter after n epochs is n. -/
theorem trainN_schedSteps {B P : Type} (env : TrainEnv B P) (L V : Loader B) (p0 : P) :
    ∀ n, (trainN env L V p0 n).schedSteps = n := by
  intro n
  induction n with
  | zero => rfl
  | succ n ih =>
      show (trainN env L V p0 n).schedSteps + 1 = n + 1
      rw [ih]

/-- The best accuracy after one more epoch. -/
theorem trainN_best_succ {B P : Type} (env : TrainEnv B P) (L V : Loader B) (p0 : P) (n : Nat) :
    (trainN env L V p0 (n + 1)).bestAccuracy
      = if (trainN env L V p0 n).bestAccuracy < valAccAt env L V p0 n
        then valAccAt env L V p0 n else (trainN env L V p0 n).bestAccuracy := by
  show (if (trainN env L V p0 n).bestAccuracy < epochValAcc env L V (trainN env L V p0 n).params
      then epochValAcc env L V (trainN env L V p0 n).params
      else (trainN env L V p0 n).bestAccuracy) = _
  rw [trainN_params]
  rfl

/-- The saved-epoch list after one more epoch. -/
theorem trainN_saved_succ {B P : Type} (env : TrainEnv B P) (L V : Loader B) (p0 : P) (n : Nat) :
    (trainN env L V p0 (n + 1)).savedEpochs
      = if (trainN env L V p0 n).bestAccuracy < valAccAt env L V p0 n
        then (trainN env L V p0 n).savedEpochs ++ [n]
        else (trainN env L V p0 n).savedEpochs := by
  show (if (trainN env L V p0 n).bestAccuracy < epochValAcc env L V (trainN env L V p0 n).params
      then (trainN env L V p0 n).savedEpochs ++ [n]
      else (trainN env L V p0 n).savedEpochs) = _
  rw [trainN_params]
  rfl

/-- A value exceeds the running best after n epochs exactly when it is
positive and exceeds every earlier validation accuracy: the best value is
the maximum of 0 and the accuracies seen so far. -/
theorem trainN_best_lt_iff {B P : Type} (env : TrainEnv B P) (L V : Loader B) (p0 : P) :
    ∀ (n : Nat) (a : Rat),
      ((trainN env L V p0 n).bestAccuracy < a
        ↔ 0 < a ∧ ∀ j, j < n → valAccAt env L V p0 j < a) := by
  intro n
  induction n with
  | zero =>
      intro a
      constructor
      · intro h
        exact ⟨h, fun j hj => absurd hj (Nat.not_lt_zero j)⟩
      · intro h
        exact h.1
  | succ n ih =>
      intro a
      rw [trainN_best_succ]
      by_cases hc : (trainN env L V p0 n).bestAccuracy < valAccAt env L V p0 n
      · rw [if_pos hc]
        constructor
        · intro h
          rcases (ih a).mp (lt_trans hc h) with ⟨ha, hall⟩
          refine ⟨ha, fun j hj => ?_⟩
          rcases Nat.lt_succ_iff_lt_or_eq.mp hj with hj2 | hj2
          · exact hall j hj2
          · rw [hj2]; exact h
        · intro h
          exact h.2 n (Nat.lt_succ_self n)
      · rw [if_neg hc]
        constructor
        · intro h
          rcases (ih a).mp h with ⟨ha, hall⟩
          refine ⟨ha, fun j hj => ?_⟩
          rcases Nat.lt_succ_iff_lt_or_eq.mp hj with hj2 | hj2
          · exact hall j hj2
          · rw [hj2]
            exact lt_of_le_of_lt (not_lt.mp hc) h
        · intro h
          exact (ih a).mpr ⟨h.1, fun j hj => h.2 j (Nat.lt_succ_of_lt hj)⟩

/-- Membership in the saved-epoch list after n epochs: epoch e is saved
exactly when e < n and its validation accuracy beat the best value that
preceded it. -/
theorem trainN_mem_saved {B P : Type} (env : TrainEnv B P) (L V : Loader B) (p0 : P) :
    ∀ (n e : Nat),
      (e ∈ (trainN env L V p0 n).savedEpochs
        ↔ e < n ∧ (trainN env L V p0 e).bestAccuracy < valAccAt env L V p0 e) := by
  intro n
  induction n with
  | zero =>
      intro e
      constructor
      · intro h
        exact absurd h (List.not_mem_nil e)
      · intro h
        exact absurd h.1 (Nat.not_lt_zero e)
  | succ n ih =>
      intro e
      rw [trainN_saved_succ]
      by_cases hc : (trainN env L V p0 n).bestAccuracy < valAccAt env L V p0 n
      · rw [if_pos hc, List.mem_append, List.mem_singleton, ih e]
        constructor
        · intro h
          rcases h with h | h
          · exact ⟨Nat.lt_succ_of_lt h.1, h.2⟩
          · rw [h]
            exact ⟨Nat.lt_succ_self n, hc⟩
        · intro h
          rcases Nat.lt_succ_iff_lt_or_eq.mp h.1 with he | he
          · exact Or.inl ⟨he, h.2⟩
          · exact Or.inr he
      · rw [if_neg hc, ih e]
        constructor
        · intro h
          exact ⟨Nat.lt_succ_of_lt h.1, h.2⟩
        · intro h
          rcases Nat.lt_succ_iff_lt_or_eq.mp h.1 with he | he
          · exact ⟨he, h.2⟩
          · rw [he] at h
            exact absurd h.2 hc

/-- One epoch emits exactly one scheduler-step event. -/
theorem epochEvents_count_sched {B : Type} (L V : Loader B) (s : Bool) :
    (epochEvents L V s).count TEvent.schedStep = 1 := by
  rw [epochEvents, List.count_append, List.count_append]
  have h1 : (L.batches.map fun _ => TEvent.trainBatch).count TEvent.schedStep = 0 := by
    rw [List.count_eq_zero]
    intro hmem
    rcases List.mem_map.mp hmem with ⟨b, _, hb⟩
    exact TEvent.noConfusion hb
  have h2 : (V.batches.map fun _ => TEvent.valBatch).count TEvent.schedStep = 0 := by
    rw [List.count_eq_zero]
    intro hmem
    rcases List.mem_map.mp hmem with ⟨b, _, hb⟩
    exact TEvent.noConfusion hb
  rw [h1, h2]
  rfl

/-- The event trace after n epochs holds exactly n scheduler steps. -/
theorem trainN_trace_sched {B P : Type} (env : TrainEnv B P) (L V : Loader B) (p0 : P) :
    ∀ n, (trainN env L V p0 n).trace.count TEvent.schedStep = n := by
  intro n
  induction n with
  | zero => rfl
  | succ n ih =>
      show ((trainN env L V p0 n).trace ++ epochEvents L V _).count TEvent.schedStep = n + 1
      rw [List.count_append, ih, epochEvents_count_sched]

/- ### Helper lemmas: argument parsing -/

/-- A pair whose flag and value make applyPair fail from any
configuration makes the whole pair fold fail once the pair occurs. -/
theorem applyPairs_err (name v : String)
    (herr : ∀ a : Args, ∃ e, applyPair a name v = .error e) :
    ∀ (pairs : List (String × String)) (a : Args),
      (name, v) ∈ pairs → ∃ e, applyPairs a pairs = .error e := by
  intro pairs
  induction pairs with
  | nil =>
      intro a h
      exact absurd h (List.not_mem_nil _)
  | cons p rest ih =>
      intro a h
      rcases List.mem_cons.mp h with h1 | h1
      · subst h1
        rcases herr a with ⟨e, he⟩
        refine ⟨e, ?_⟩
        show (match applyPair a name v with
          | .error e => .error e
          | .ok a2 => applyPairs a2 rest) = Except.error e
        rw [he]
      · match hap : applyPair a p.1 p.2 with
        | .error e =>
            refine ⟨e, ?_⟩
            show (match applyPair a p.1 p.2 with
              | .error e => .error e
              | .ok a2 => applyPairs a2 rest) = Except.error e
            rw [hap]
        | .ok a2 =>
            rcases ih a2 h1 with ⟨e, he⟩
            refine ⟨e, ?_⟩
            show (match applyPair a p.1 p.2 with
              | .error e => .error e
              | .ok a2 => applyPairs a2 rest) = Except.error e
            rw [hap]
            exact he

/-- A supplied num_classes value that is not one of the declared choices
(or does not convert to an integer at all) makes applyPair fail. -/
theorem applyPair_num_classes_err (v : String)
    (hv : ∀ z ∈ ([10, 100, 1000] : List Int), intParse v ≠ some z) :
    ∀ a : Args, ∃ e, applyPair a "--num_classes" v = .error e := by
  intro a
  match hz : intParse v with
  | none =>
      refine ⟨"usage: argument --num_classes: invalid int value", ?_⟩
      simp only [applyPair, hz]
  | some z =>
      have hne : ¬(z = 10 ∨ z = 100 ∨ z = 1000) := by
        intro hor
        rcases hor with h | h | h
        · exact hv 10 (by simp) (by rw [← h]; exact hz)
        · exact hv 100 (by simp) (by rw [← h]; exact hz)
        · exact hv 1000 (by simp) (by rw [← h]; exact hz)
      refine ⟨"usage: argument --num_classes: invalid choice", ?_⟩
      simp only [applyPair, hz, if_neg hne]

/-- A supplied dataset value outside the declared choices makes applyPair
fail. -/
theorem applyPair_dataset_err (v : String)
    (hv : v ∉ (["CIFAR10", "CIFAR100"] : List String)) :
    ∀ a : Args, ∃ e, applyPair a "--dataset" v = .error e := by
  intro a
  have hne : ¬(v = "CIFAR10" ∨ v = "CIFAR100") := by
    intro hor
    exact hv (by simpa using hor)
  refine ⟨"usage: argument --dataset: invalid choice", ?_⟩
  simp only [applyPair, if_neg hne]

/-- An undeclared token at the head of the vector is collected as
unrecognized and the rest of the scan is unchanged. -/
theorem scanArgv_unknown_cons (f : String) (argv : List String)
    (hf : f ∉ knownFlagNames) :
    scanArgv (f :: argv) none
      = match scanArgv argv none with
        | .error e => .error e
        | .ok (ps, us) => .ok (ps, f :: us) := by
  show (if f ∈ knownFlagNames then scanArgv argv (some f)
      else match scanArgv argv none with
        | .error e => .error e
        | .ok (ps, us) => .ok (ps, f :: us)) = _
  rw [if_neg hf]

/- ### Claim theorems -/

/-- C1: For every training batch, a positive clip threshold makes the
Trainer unscale the gradients and rescale them so their global norm does
not exceed the threshold, after unscaling and before the optimizer step;
a non-positive threshold leaves the gradients unmodified; and the
argument schema never declares a clip_grad flag. -/
theorem C1_clip_grad_contract (c gn : Rat) :
    "--clip_grad" ∉ knownFlagNames
    ∧ (0 < c →
        gradNormAtStep c gn ≤ c
        ∧ trainStepEvents c
          = [GEvent.backward, GEvent.unscale, GEvent.clipGrad,
             GEvent.optimizerStep, GEvent.scalerUpdate])
    ∧ (¬0 < c →
        gradNormAtStep c gn = gn
        ∧ trainStepEvents c = [GEvent.backward, GEvent.optimizerStep, GEvent.scalerUpdate]) := by
  refine ⟨by decide, fun h => ⟨?_, ?_⟩, fun h => ⟨?_, ?_⟩⟩
  · rw [gradNormAtStep, if_pos h, clip_gradients]
    by_cases hg : c < gn
    · rw [if_pos hg]
    · rw [if_neg hg]
      exact not_lt.mp hg
  · rw [trainStepEvents, if_pos h]
  · rw [gradNormAtStep, if_neg h]
  · rw [trainStepEvents, if_neg h]

/-- Witness for C1 at threshold 1 and gradient norm 5. -/
theorem C1_clip_grad_contract_witness : gradNormAtStep 1 5 ≤ 1 :=
  ((C1_clip_grad_contract 1 5).2.1 (by decide)).1

/-- C2 counterexample: the claim fails on parsed configurations.  With
num_classes parsed as 100, main passes 0 (not 100) to the model, so the
model cannot map to logits of shape (batch, 100); with embed_dim parsed
as 384, main passes 192. -/
theorem C2_model_config_cex :
    parseKnownArgs ["--num_classes", "100"]
      = .ok ({ defaultArgs with num_classes := 100 }, [])
    ∧ parseKnownArgs ["--embed_dim", "384"]
      = .ok ({ defaultArgs with embed_dim := 384 }, [])
    ∧ (mainViTArgs { defaultArgs with num_classes := 100 }).num_classes = 0
    ∧ (mainViTArgs { defaultArgs with num_classes := 100 }).num_classes
        ≠ ({ defaultArgs with num_classes := 100 } : Args).num_classes
    ∧ (mainViTArgs { defaultArgs with embed_dim := 384 }).embed_dim
        ≠ ({ defaultArgs with embed_dim := 384 } : Args).embed_dim
    ∧ vitOutputShape (mainViTArgs { defaultArgs with num_classes := 100 }) 4 3 32 32
        ≠ (4, ({ defaultArgs with num_classes := 100 } : Args).num_classes) :=
  ⟨rfl, rfl, rfl, by decide, by decide, by decide⟩

/-- C2 amended: the model main builds takes image size, patch size,
channel count, the QKV-bias flag and the drop rates from the
configuration, but hard-codes num_classes = 0, embed_dim = 192,
depth = 9, num_heads = 12 and mlp_ratio = 2, so its output dimension is
0 rather than the configured class count. -/
theorem C2_model_hardcoded (a : Args) (batch channels height width : Nat) :
    (mainViTArgs a).num_classes = 0
    ∧ (mainViTArgs a).embed_dim = 192
    ∧ (mainViTArgs a).depth = 9
    ∧ (mainViTArgs a).num_heads = 12
    ∧ (mainViTArgs a).mlp_ratio = 2
    ∧ (mainViTArgs a).img_size = [a.image_size]
    ∧ (mainViTArgs a).patch_size = a.patch_size
    ∧ (mainViTArgs a).in_chans = a.in_channels
    ∧ (mainViTArgs a).qkv_bias = a.qkv_bias
    ∧ (mainViTArgs a).drop_rate = a.drop_rate
    ∧ (mainViTArgs a).drop_path_rate = a.drop_path_rate
    ∧ vitOutputShape (mainViTArgs a) batch channels height width = (batch, 0) :=
  ⟨rfl, rfl, rfl, rfl, rfl, rfl, rfl, rfl, rfl, rfl, rfl, rfl⟩

/-- C6: Trainer.train returns four empty lists for every environment,
pair of loaders, initial parameters and epoch count: the lists
initialized at src/train.py:113 are never appended to. -/
theorem C6_train_returns_empty {B P : Type} (env : TrainEnv B P) (L V : Loader B)
    (p0 : P) (n : Nat) :
    trainReturn env L V p0 n = ([], [], [], []) := by
  rcases trainN_lists env L V p0 n with ⟨h1, h2, h3, h4⟩
  rw [trainReturn, h1, h2, h3, h4]

/-- C7: The validation loop of every epoch leaves the model parameters
unchanged: every validation fold returns the parameters it started from,
and the parameters after a whole epoch are exactly those the training
phase produced. -/
theorem C7_validation_no_mutation {B P : Type} (env : TrainEnv B P) (L V : Loader B)
    (e : Nat) (st : PhaseAcc P) (ts : TState P) (p : P) (bs : List B) :
    (bs.foldl (valBatchStep env) st).params = st.params
    ∧ (valPhase env p bs).params = p
    ∧ (runEpoch env L V e ts).params = (trainPhase env ts.params L.batches).params := by
  refine ⟨valFold_params env bs st, valPhase_params env p bs, ?_⟩
  show (valPhase env (trainPhase env ts.params L.batches).params V.batches).params = _
  rw [valPhase_params]

/-- C8: The scheduler is advanced exactly once per epoch, never per
training batch, and after the checkpoint decision: a run of n epochs
emits exactly n scheduler-step events (and counts n scheduler steps),
and the events of each epoch end with the checkpoint decision immediately
followed by the single scheduler step. -/
theorem C8_scheduler_once_per_epoch {B P : Type} (env : TrainEnv B P) (L V : Loader B)
    (p0 : P) (n : Nat) :
    (trainN env L V p0 n).schedSteps = n
    ∧ (trainN env L V p0 n).trace.count TEvent.schedStep = n
    ∧ ∀ s : Bool,
        ∃ pre, epochEvents L V s = pre ++ [TEvent.checkpointDecision s, TEvent.schedStep]
          ∧ TEvent.schedStep ∉ pre := by
  refine ⟨trainN_schedSteps env L V p0 n, trainN_trace_sched env L V p0 n, fun s => ?_⟩
  refine ⟨(L.batches.map fun _ => TEvent.trainBatch) ++ (V.batches.map fun _ => TEvent.valBatch),
    ?_, ?_⟩
  · rw [epochEvents, List.append_assoc]
  · intro hmem
    rcases List.mem_append.mp hmem with h | h
    · rcases List.mem_map.mp h with ⟨b, _, hb⟩
      exact TEvent.noConfusion hb
    · rcases List.mem_map.mp h with ⟨b, _, hb⟩
      exact TEvent.noConfusion hb

/-- Witness for C8: three epochs step the scheduler three times. -/
theorem C8_scheduler_once_per_epoch_witness :
    (trainN wEnv wLoader wLoader () 3).schedSteps = 3 :=
  (C8_scheduler_once_per_epoch wEnv wLoader wLoader () 3).1

/-- C3: A checkpoint is persisted at the end of epoch e if and only if
e ran and its validation accuracy strictly exceeds 0 (the initial best
floor, so ties with it do not save) and every previous validation
accuracy of the run; when it is persisted, the best-value record becomes
that accuracy at the same time. -/
theorem C3_checkpoint_iff_new_best {B P : Type} (env : TrainEnv B P) (L V : Loader B)
    (p0 : P) (n e : Nat) :
    (e ∈ (trainN env L V p0 n).savedEpochs
      ↔ e < n ∧ 0 < valAccAt env L V p0 e
          ∧ ∀ j, j < e → valAccAt env L V p0 j < valAccAt env L V p0 e)
    ∧ (e ∈ (trainN env L V p0 n).savedEpochs
        → (trainN env L V p0 (e + 1)).bestAccuracy = valAccAt env L V p0 e) := by
  constructor
  · rw [trainN_mem_saved env L V p0 n e,
      trainN_best_lt_iff env L V p0 e (valAccAt env L V p0 e)]
  · intro h
    have h2 := (trainN_mem_saved env L V p0 n e).mp h
    rw [trainN_best_succ, if_pos h2.2]

/-- Witness for C3: with a constant one-correct-prediction environment,
epoch 0 of a two-epoch run is checkpointed. -/
theorem C3_checkpoint_iff_new_best_witness :
    0 ∈ (trainN wEnv wLoader wLoader () 2).savedEpochs :=
  (C3_checkpoint_iff_new_best wEnv wLoader wLoader () 2 0).1.mpr
    ⟨Nat.zero_lt_two,
      by simp [valAccAt, epochValAcc, valPhase, valBatchStep, trainPhase, trainBatchStep,
        paramsAt, wEnv, wLoader],
      fun j hj => absurd hj (Nat.not_lt_zero j)⟩

/-- C5: For every epoch of a run over loaders whose batch sizes are
consistent with the dataset sizes (and nonempty, so the divisions are
the ones the program performs), the logged average loss of each split is
the sum of the per-batch losses of that split divided by its batch count, the
logged accuracy is the correct-prediction count divided by the dataset
size, and both accuracies lie in the unit interval. -/
theorem C5_metrics_formulas {B P : Type} (env : TrainEnv B P) (L V : Loader B)
    (p0 : P) (n : Nat)
    (_hLne : L.batches ≠ []) (_hVne : V.batches ≠ [])
    (_hLd : 0 < L.datasetSize) (_hVd : 0 < V.datasetSize)
    (hc : ∀ (p : P) (b : B), env.forwardCorrect p b ≤ env.batchSize b)
    (hL : (L.batches.map env.batchSize).sum = L.datasetSize)
    (hV : (V.batches.map env.batchSize).sum = V.datasetSize) :
    (trainN env L V p0 n).log
      = (List.range n).map (fun e => epochMetricsOf env L V (paramsAt env L p0 e))
    ∧ ∀ e : Nat,
        (epochMetricsOf env L V (paramsAt env L p0 e)).avgTrainLoss
          = (perBatchLosses env (paramsAt env L p0 e) L.batches).sum / (L.batches.length : Rat)
        ∧ (epochMetricsOf env L V (paramsAt env L p0 e)).trainAcc
          = ((perBatchCorrects env (paramsAt env L p0 e) L.batches).sum : Rat) / (L.datasetSize : Rat)
        ∧ (epochMetricsOf env L V (paramsAt env L p0 e)).avgValLoss
          = (V.batches.map (env.forwardLoss (paramsAt env L p0 (e + 1)))).sum / (V.batches.length : Rat)
        ∧ (epochMetricsOf env L V (paramsAt env L p0 e)).valAcc
          = (((V.batches.map (env.forwardCorrect (paramsAt env L p0 (e + 1)))).sum : Nat) : Rat) / (V.datasetSize : Rat)
        ∧ 0 ≤ (epochMetricsOf env L V (paramsAt env L p0 e)).trainAcc
        ∧ (epochMetricsOf env L V (paramsAt env L p0 e)).trainAcc ≤ 1
        ∧ 0 ≤ (epochMetricsOf env L V (paramsAt env L p0 e)).valAcc
        ∧ (epochMetricsOf env L V (paramsAt env L p0 e)).valAcc ≤ 1 := by
  refine ⟨trainN_log env L V p0 n, fun e => ?_⟩
  have hTL : (epochMetricsOf env L V (paramsAt env L p0 e)).avgTrainLoss
      = (perBatchLosses env (paramsAt env L p0 e) L.batches).sum / (L.batches.length : Rat) := by
    show epochTrainLoss env L (paramsAt env L p0 e) = _
    rw [epochTrainLoss, trainPhase_totalLoss]
  have hTA : (epochMetricsOf env L V (paramsAt env L p0 e)).trainAcc
      = ((perBatchCorrects env (paramsAt env L p0 e) L.batches).sum : Rat) / (L.datasetSize : Rat) := by
    show epochTrainAcc env L (paramsAt env L p0 e) = _
    rw [epochTrainAcc, trainPhase_totalCorrect]
  have hVL : (epochMetricsOf env L V (paramsAt env L p0 e)).avgValLoss
      = (V.batches.map (env.forwardLoss (paramsAt env L p0 (e + 1)))).sum / (V.batches.length : Rat) := by
    show epochValLoss env L V (paramsAt env L p0 e) = _
    rw [epochValLoss, valPhase_totalLoss]
    rfl
  have hVA : (epochMetricsOf env L V (paramsAt env L p0 e)).valAcc
      = (((V.batches.map (env.forwardCorrect (paramsAt env L p0 (e + 1)))).sum : Nat) : Rat) / (V.datasetSize : Rat) := by
    show epochValAcc env L V (paramsAt env L p0 e) = _
    rw [epochValAcc, valPhase_totalCorrect]
    rfl
  have hTAb := natRatio_mem_unit (perBatchCorrects env (paramsAt env L p0 e) L.batches).sum
    L.datasetSize (by rw [← hL]; exact perBatchCorrects_sum_le env hc L.batches _)
  have hVAb := natRatio_mem_unit (V.batches.map (env.forwardCorrect (paramsAt env L p0 (e + 1)))).sum
    V.datasetSize (by
      rw [← hV]
      exact List.sum_le_sum (fun b _ => hc (paramsAt env L p0 (e + 1)) b))
  refine ⟨hTL, hTA, hVL, hVA, ?_, ?_, ?_, ?_⟩
  · rw [hTA]
    exact hTAb.1
  · rw [hTA]
    exact hTAb.2
  · rw [hVA]
    exact hVAb.1
  · rw [hVA]
    exact hVAb.2

/-- Witness for C5 on the unit environment over a one-example loader. -/
theorem C5_metrics_formulas_witness :
    (trainN wEnv wLoader wLoader () 2).log
      = (List.range 2).map (fun e => epochMetricsOf wEnv wLoader wLoader (paramsAt wEnv wLoader () e)) :=
  (C5_metrics_formulas wEnv wLoader wLoader () 2 (by decide) (by decide) (by decide) (by decide)
    (fun _ _ => Nat.le_refl 1) (by decide) (by decide)).1

/-- C9: Parsing applies the declared defaults (the empty vector yields
the default configuration) and fails with a usage error whenever a
supplied num_classes value is outside {10, 100, 1000} (or not an
integer at all) or a supplied dataset value is outside
{CIFAR10, CIFAR100}; the parse is a pure function of the vector. -/
theorem C9_invalid_choice_usage_error (argv : List String)
    (pairs : List (String × String)) (unknown : List String) (v : String)
    (hsplit : splitKnown argv = .ok (pairs, unknown))
    (hbad : (("--num_classes", v) ∈ pairs
              ∧ ∀ z ∈ ([10, 100, 1000] : List Int), intParse v ≠ some z)
          ∨ (("--dataset", v) ∈ pairs ∧ v ∉ (["CIFAR10", "CIFAR100"] : List String))) :
    (∃ e, parseKnownArgs argv = .error e)
    ∧ parseKnownArgs [] = .ok (defaultArgs, []) := by
  constructor
  · have herr : ∃ e, applyPairs defaultArgs pairs = .error e := by
      rcases hbad with ⟨hmem, hv⟩ | ⟨hmem, hv⟩
      · exact applyPairs_err _ _ (applyPair_num_classes_err v hv) pairs defaultArgs hmem
      · exact applyPairs_err _ _ (applyPair_dataset_err v hv) pairs defaultArgs hmem
    rcases herr with ⟨e, he⟩
    refine ⟨e, ?_⟩
    show (match splitKnown argv with
      | .error e => .error e
      | .ok (pairs, unknown) =>
          match applyPairs defaultArgs pairs with
          | .error e => .error e
          | .ok a => .ok (a, unknown)) = Except.error e
    rw [hsplit]
    show (match applyPairs defaultArgs pairs with
      | .error e => .error e
      | .ok a => .ok (a, unknown)) = Except.error e
    rw [he]
  · rfl

/-- Witness for C9: the vector supplying 7 for num_classes fails. -/
theorem C9_invalid_choice_usage_error_witness :
    ∃ e, parseKnownArgs ["--num_classes", "7"] = .error e :=
  (C9_invalid_choice_usage_error ["--num_classes", "7"] [("--num_classes", "7")] [] "7"
    rfl (Or.inl ⟨by decide, by decide⟩)).1

/-- An unrecognized head token passes through the whole parse: the
configuration outcome of the rest of the vector is unchanged and the
token is collected into the unrecognized list. -/
theorem parseKnown_unknown_cons (f : String) (argv : List String)
    (hf : f ∉ knownFlagNames) :
    parseKnownArgs (f :: argv)
      = (match parseKnownArgs argv with
         | Except.error e => Except.error e
         | Except.ok (a, us) => Except.ok (a, f :: us)) := by
  show (match splitKnown (f :: argv) with
    | Except.error e => (Except.error e : Except String (Args × List String))
    | Except.ok (pairs, unknown) =>
        match applyPairs defaultArgs pairs with
        | Except.error e => Except.error e
        | Except.ok a => Except.ok (a, unknown)) = _
  rw [splitKnown, scanArgv_unknown_cons f argv hf]
  cases h : scanArgv argv none with
  | error e =>
      show Except.error e = _
      have h2 : parseKnownArgs argv = .error e := by
        show (match splitKnown argv with
          | Except.error e => (Except.error e : Except String (Args × List String))
          | Except.ok (pairs, unknown) =>
              match applyPairs defaultArgs pairs with
              | Except.error e => Except.error e
              | Except.ok a => Except.ok (a, unknown)) = _
        rw [splitKnown, h]
      rw [h2]
  | ok pu =>
      rcases pu with ⟨ps, us⟩
      have h2 : parseKnownArgs argv
          = (match applyPairs defaultArgs ps with
             | Except.error e => Except.error e
             | Except.ok a => Except.ok (a, us)) := by
        show (match splitKnown argv with
          | Except.error e => (Except.error e : Except String (Args × List String))
          | Except.ok (pairs, unknown) =>
              match applyPairs defaultArgs pairs with
              | Except.error e => Except.error e
              | Except.ok a => Except.ok (a, unknown)) = _
        rw [splitKnown, h]
      rw [h2]
      cases h3 : applyPairs defaultArgs ps with
      | error e => simp only [h3]
      | ok a => simp only [h3]

/-- C10: An undeclared flag never causes a usage error: it is collected
into the unrecognized list and the parsed configuration is exactly the
one of the vector without it; in particular the misspelled vector
[--num_clases, 100] parses to the default configuration with both of
its tokens ignored. -/
theorem C10_unknown_flags_ignored (f : String) (argv : List String)
    (hf : f ∉ knownFlagNames) :
    parseKnownArgs (f :: argv)
      = (match parseKnownArgs argv with
         | Except.error e => Except.error e
         | Except.ok (a, us) => Except.ok (a, f :: us))
    ∧ parseKnownArgs ["--num_clases", "100"] = .ok (defaultArgs, ["--num_clases", "100"]) :=
  ⟨parseKnown_unknown_cons f argv hf, rfl⟩

/-- Witness for C10 at the undeclared flag --foo. -/
theorem C10_unknown_flags_ignored_witness :
    parseKnownArgs ["--foo"]
      = (match parseKnownArgs [] with
         | Except.error e => Except.error e
         | Except.ok (a, us) => Except.ok (a, "--foo" :: us)) :=
  (C10_unknown_flags_ignored "--foo" [] (by decide)).1

/-- The float conversion of the token 0.3 is the rational 3/10. -/
theorem floatParse_03 : floatParse "0.3" = some ((3 : Rat)/10) := by
  show some (((0 : Nat) : Rat) + ((3 : Nat) : Rat) / ((10 : Nat) : Rat)) = some ((3 : Rat)/10)
  refine congrArg some ?_
  push_cast
  norm_num

/-- C4 counterexample: the claim fails on the parsed configuration with
label_smoothing = 3/10.  main builds the loss with no argument
(src/train.py:232), so its smoothing fraction is the constructor default
1/10, not the configured 3/10. -/
theorem C4_label_smoothing_cex :
    parseKnownArgs ["--label_smoothing", "0.3"]
      = .ok ({ defaultArgs with label_smoothing := 3/10 }, [])
    ∧ (mainLoss { defaultArgs with label_smoothing := 3/10 }).smoothing = 1/10
    ∧ (mainLoss { defaultArgs with label_smoothing := 3/10 }).smoothing
        ≠ ({ defaultArgs with label_smoothing := 3/10 } : Args).label_smoothing := by
  refine ⟨?_, rfl, ?_⟩
  · have h : ((0 : Nat) : Rat) + ((3 : Nat) : Rat) / ((10 : Nat) : Rat) = (3 : Rat)/10 := by
      push_cast
      norm_num
    exact congrArg
      (fun x : Rat =>
        (Except.ok ({ defaultArgs with label_smoothing := x }, ([] : List String)) :
          Except String (Args × List String))) h
  · show ¬((1 : Rat)/10 = (3 : Rat)/10)
    norm_num

/-- C4 amended: the loss is label-smoothed cross-entropy, but its
smoothing fraction is the constructor default 1/10 for every parsed
configuration; the --label_smoothing flag value never reaches it.  The
default fraction is redistributed as the spec describes: the target
keeps 1 minus the fraction and the remaining mass is split uniformly
over the other n - 1 classes, summing back to the fraction. -/
theorem C4_label_smoothing_default (a : Args) (n t : Nat) (ht : t < n) (hn : 2 ≤ n) :
    (mainLoss a).smoothing = 1/10
    ∧ mainLoss a = mainLoss defaultArgs
    ∧ smoothedTargetProb ((mainLoss a).smoothing) n t t = 1 - (mainLoss a).smoothing
    ∧ (∑ i in (Finset.range n).erase t, smoothedTargetProb ((mainLoss a).smoothing) n t i)
        = (mainLoss a).smoothing := by
  refine ⟨rfl, rfl, ?_, ?_⟩
  · rw [smoothedTargetProb, if_pos rfl]
  · have hcard : ((Finset.range n).erase t).card = n - 1 := by
      rw [Finset.card_erase_of_mem (Finset.mem_range.mpr ht), Finset.card_range]
    have hconst : ∀ i ∈ (Finset.range n).erase t,
        smoothedTargetProb ((mainLoss a).smoothing) n t i
          = (mainLoss a).smoothing / ((n : Rat) - 1) := by
      intro i hi
      rw [smoothedTargetProb, if_neg (Finset.ne_of_mem_erase hi)]
    have h1n : 1 ≤ n := le_trans one_le_two hn
    have hgt : (1 : Rat) < (n : Rat) := by
      exact_mod_cast lt_of_lt_of_le one_lt_two hn
    have hd : (n : Rat) - 1 ≠ 0 := ne_of_gt (by linarith)
    rw [Finset.sum_congr rfl hconst, Finset.sum_const, hcard, nsmul_eq_mul,
      Nat.cast_sub h1n, Nat.cast_one, mul_comm, div_mul_cancel₀ _ hd]

/-- Witness for C4 with the default configuration and three classes. -/
theorem C4_label_smoothing_default_witness :
    (mainLoss defaultArgs).smoothing = 1/10 :=
  (C4_label_smoothing_default defaultArgs 3 1 (by decide) (by decide)).1
